import Mathlib

/-!
Verification of the collision-layer filtering and simulation-driver
integration layer of JoltPhysics.js (src/JoltJS.h).

The embedding is shallow: object layers and broadphase layers (C++
`ObjectLayer` = uint16, `BroadPhaseLayer` wraps uint8) are modelled as
`Nat` (none of the embedded functions perform arithmetic on them, so
no overflow can occur); the `JPH_ASSERT` macro is modelled by an
explicit `assertFired` flag carried next to the returned value, so that
both the assert-enabled and assert-compiled-out behaviour of each
function is captured by one definition.
-/

/-- Result of running a piece of code that may trip a `JPH_ASSERT`:
`assertFired` records whether the assertion sink was invoked, `value`
is the value the function returns (the assert handler in this codebase
returns, so a value is produced in both build configurations). -/
structure ExecResult (α : Type) where
  assertFired : Bool
  value : α
deriving Repr, DecidableEq

/- The `enum class Layers` of src/JoltJS.h lines 47-52. -/
namespace Layers

def NON_MOVING : Nat := 0

def MOVING : Nat := 1

def NUM_LAYERS : Nat := 2

end Layers

/- The `namespace BroadPhaseLayers` of src/JoltJS.h lines 70-75. -/
namespace BroadPhaseLayers

def NON_MOVING : Nat := 0

def MOVING : Nat := 1

def NUM_LAYERS : Nat := 2

end BroadPhaseLayers

/-- `MyObjectCanCollide` (src/JoltJS.h lines 55-67): switch on
`inObject1`; the NON_MOVING case returns `inObject2 == MOVING`, the
MOVING case returns true, the default case runs `JPH_ASSERT(false)`
and returns false. -/
def MyObjectCanCollide (inObject1 inObject2 : Nat) : ExecResult Bool :=
  if inObject1 = Layers.NON_MOVING then
    ⟨false, decide (inObject2 = Layers.MOVING)⟩
  else if inObject1 = Layers.MOVING then
    ⟨false, true⟩
  else
    ⟨true, false⟩

namespace BPLayerInterfaceImpl

/-- The `mObjectToBroadPhase` table as populated by the
`BPLayerInterfaceImpl` constructor (src/JoltJS.h lines 82-87):
entry NON_MOVING (index 0) holds `BroadPhaseLayers::NON_MOVING`, entry
MOVING (index 1) holds `BroadPhaseLayers::MOVING`. -/
def mObjectToBroadPhase : List Nat :=
  [BroadPhaseLayers.NON_MOVING, BroadPhaseLayers.MOVING]

/-- `GetNumBroadPhaseLayers` (src/JoltJS.h lines 89-92). -/
def GetNumBroadPhaseLayers : Nat := BroadPhaseLayers.NUM_LAYERS

/-- `GetBroadPhaseLayer` (src/JoltJS.h lines 94-98): asserts
`inLayer < (int)Layers::NUM_LAYERS`, then indexes the table.  An
out-of-range index is undefined behaviour in the C++ source; it is
modelled as `none`. -/
def GetBroadPhaseLayer (inLayer : Nat) : ExecResult (Option Nat) :=
  ⟨decide (¬ inLayer < Layers.NUM_LAYERS), mObjectToBroadPhase.get? inLayer⟩

end BPLayerInterfaceImpl

/-- `MyBroadPhaseCanCollide` (src/JoltJS.h lines 117-129): switch on
`inLayer1` (an object layer); the NON_MOVING case returns
`inLayer2 == BroadPhaseLayers::MOVING`, the MOVING case returns true,
the default case runs `JPH_ASSERT(false)` and returns false. -/
def MyBroadPhaseCanCollide (inLayer1 inLayer2 : Nat) : ExecResult Bool :=
  if inLayer1 = Layers.NON_MOVING then
    ⟨false, decide (inLayer2 = BroadPhaseLayers.MOVING)⟩
  else if inLayer1 = Layers.MOVING then
    ⟨false, true⟩
  else
    ⟨true, false⟩

/-- C1: for the only valid object-layer pair in which both arguments
are NON_MOVING, `MyObjectCanCollide` returns false. -/
theorem myObjectCanCollide_nonMoving_nonMoving_false :
    (MyObjectCanCollide Layers.NON_MOVING Layers.NON_MOVING).value = false := by
  decide

/-- C2: for every pair of valid object layers in which at least one
argument is MOVING, `MyObjectCanCollide` returns true, in either
argument order. -/
theorem myObjectCanCollide_moving_true (o1 o2 : Nat)
    (h1 : o1 < Layers.NUM_LAYERS) (h2 : o2 < Layers.NUM_LAYERS)
    (hm : o1 = Layers.MOVING ∨ o2 = Layers.MOVING) :
    (MyObjectCanCollide o1 o2).value = true := by
  simp only [Layers.NUM_LAYERS] at h1 h2
  interval_cases o1 <;> interval_cases o2 <;> first
    | decide
    | (exact absurd hm (by decide))

/-- Witness for C2 at the concrete pair (NON_MOVING, MOVING). -/
theorem myObjectCanCollide_moving_true_witness :
    (MyObjectCanCollide Layers.NON_MOVING Layers.MOVING).value = true :=
  myObjectCanCollide_moving_true Layers.NON_MOVING Layers.MOVING
    (by decide) (by decide) (Or.inr rfl)

/-- C3: on the valid object-layer domain, the coarse broadphase filter
composed with the mapper agrees with the fine object-layer filter:
`MyBroadPhaseCanCollide o1 (GetBroadPhaseLayer o2)` equals
`MyObjectCanCollide o1 o2`. -/
theorem broadPhase_filter_refines_object_filter (o1 o2 b : Nat)
    (h1 : o1 < Layers.NUM_LAYERS) (h2 : o2 < Layers.NUM_LAYERS)
    (hb : (BPLayerInterfaceImpl.GetBroadPhaseLayer o2).value = some b) :
    (MyBroadPhaseCanCollide o1 b).value = (MyObjectCanCollide o1 o2).value := by
  simp only [Layers.NUM_LAYERS] at h1 h2
  interval_cases o1 <;> interval_cases o2 <;>
    (simp [BPLayerInterfaceImpl.GetBroadPhaseLayer,
        BPLayerInterfaceImpl.mObjectToBroadPhase,
        BroadPhaseLayers.NON_MOVING, BroadPhaseLayers.MOVING] at hb) <;>
    subst hb <;> decide

/-- Witness for C3 at the concrete pair (NON_MOVING, MOVING), which
the mapper sends to broadphase layer MOVING. -/
theorem broadPhase_filter_refines_object_filter_witness :
    (MyBroadPhaseCanCollide Layers.NON_MOVING BroadPhaseLayers.MOVING).value =
      (MyObjectCanCollide Layers.NON_MOVING Layers.MOVING).value :=
  broadPhase_filter_refines_object_filter Layers.NON_MOVING Layers.MOVING
    BroadPhaseLayers.MOVING (by decide) (by decide) (by decide)

/-- C4: the mapper sends NON_MOVING to broadphase layer NON_MOVING and
MOVING to broadphase layer MOVING, these two broadphase layers are
distinct, `GetNumBroadPhaseLayers` returns 2, and the number of
distinct values `GetBroadPhaseLayer` returns across the whole valid
object-layer domain equals `GetNumBroadPhaseLayers`. -/
theorem broadPhase_mapping_bijective :
    (BPLayerInterfaceImpl.GetBroadPhaseLayer Layers.NON_MOVING).value =
      some BroadPhaseLayers.NON_MOVING ∧
    (BPLayerInterfaceImpl.GetBroadPhaseLayer Layers.MOVING).value =
      some BroadPhaseLayers.MOVING ∧
    BroadPhaseLayers.NON_MOVING ≠ BroadPhaseLayers.MOVING ∧
    BPLayerInterfaceImpl.GetNumBroadPhaseLayers = 2 ∧
    (((List.range Layers.NUM_LAYERS).map
        (fun o => (BPLayerInterfaceImpl.GetBroadPhaseLayer o).value)).dedup).length =
      BPLayerInterfaceImpl.GetNumBroadPhaseLayers := by
  decide

/-- C10: with the returned value taken as the result (the value the
code produces when assertion checking is compiled out), every
object-layer value outside the known set makes `MyObjectCanCollide`
return false for every second argument and makes
`MyBroadPhaseCanCollide` return false for every broadphase-layer
argument. -/
theorem unknown_layer_defaults_to_false (o1 : Nat)
    (h : Layers.NUM_LAYERS ≤ o1) :
    (∀ o2, (MyObjectCanCollide o1 o2).value = false) ∧
    (∀ b, (MyBroadPhaseCanCollide o1 b).value = false) := by
  have h0 : o1 ≠ Layers.NON_MOVING := by
    simp only [Layers.NUM_LAYERS] at h
    simp only [Layers.NON_MOVING]
    omega
  have h1 : o1 ≠ Layers.MOVING := by
    simp only [Layers.NUM_LAYERS] at h
    simp only [Layers.MOVING]
    omega
  constructor
  · intro o2
    simp only [MyObjectCanCollide, if_neg h0, if_neg h1]
  · intro b
    simp only [MyBroadPhaseCanCollide, if_neg h0, if_neg h1]

/-- Witness for C10 at the concrete unknown layer 5. -/
theorem unknown_layer_defaults_to_false_witness :
    (MyObjectCanCollide 5 Layers.MOVING).value = false ∧
    (MyBroadPhaseCanCollide 5 BroadPhaseLayers.MOVING).value = false :=
  ⟨(unknown_layer_defaults_to_false 5 (by decide)).1 Layers.MOVING,
   (unknown_layer_defaults_to_false 5 (by decide)).2 BroadPhaseLayers.MOVING⟩

/-- C5 counterexample: calling `MyObjectCanCollide` with the
out-of-range object-layer value 2 as its second argument fires no
assertion and silently produces the default result false — the switch
in the source only inspects the first argument. -/
theorem unknown_second_layer_no_assert :
    (MyObjectCanCollide Layers.NON_MOVING 2).assertFired = false ∧
    (MyObjectCanCollide Layers.NON_MOVING 2).value = false := by
  decide

/-- C5 amended: for every object-layer value outside the known set
passed as the first (switched-on) argument, `MyObjectCanCollide` and
`MyBroadPhaseCanCollide` fire the assertion sink for every second
argument, and `GetBroadPhaseLayer` fires the assertion sink; an
out-of-range second argument to `MyObjectCanCollide` is not checked. -/
theorem unknown_first_layer_asserts (o : Nat)
    (h : Layers.NUM_LAYERS ≤ o) :
    (∀ x, (MyObjectCanCollide o x).assertFired = true) ∧
    (∀ b, (MyBroadPhaseCanCollide o b).assertFired = true) ∧
    (BPLayerInterfaceImpl.GetBroadPhaseLayer o).assertFired = true := by
  have h0 : o ≠ Layers.NON_MOVING := by
    simp only [Layers.NUM_LAYERS] at h
    simp only [Layers.NON_MOVING]
    omega
  have h1 : o ≠ Layers.MOVING := by
    simp only [Layers.NUM_LAYERS] at h
    simp only [Layers.MOVING]
    omega
  refine ⟨fun x => ?_, fun b => ?_, ?_⟩
  · simp only [MyObjectCanCollide, if_neg h0, if_neg h1]
  · simp only [MyBroadPhaseCanCollide, if_neg h0, if_neg h1]
  · simp only [BPLayerInterfaceImpl.GetBroadPhaseLayer,
      decide_eq_true_eq, not_lt]
    exact h

/-- Witness for amended C5 at the concrete unknown layer 2. -/
theorem unknown_first_layer_asserts_witness :
    (MyObjectCanCollide 2 Layers.NON_MOVING).assertFired = true ∧
    (MyBroadPhaseCanCollide 2 BroadPhaseLayers.NON_MOVING).assertFired = true ∧
    (BPLayerInterfaceImpl.GetBroadPhaseLayer 2).assertFired = true :=
  ⟨(unknown_first_layer_asserts 2 (by decide)).1 Layers.NON_MOVING,
   (unknown_first_layer_asserts 2 (by decide)).2.1 BroadPhaseLayers.NON_MOVING,
   (unknown_first_layer_asserts 2 (by decide)).2.2⟩

/-- The process-wide state that the `JoltInterface` constructor and
destructor (src/JoltJS.h lines 136-162) read and write: the installed
diagnostic hooks, `Factory::sInstance` (holding the id of the
currently installed `Factory` allocation, or `none` for nullptr), an
allocation counter supplying fresh ids for `new Factory()`, the number
of `RegisterTypes()` calls made, and the number of assertions fired. -/
structure GlobalState where
  traceInstalled : Bool
  assertHandlerInstalled : Bool
  sInstance : Option Nat
  nextFactoryId : Nat
  registerTypesCalls : Nat
  assertsFired : Nat
deriving Repr, DecidableEq

/-- The process state before any `JoltInterface` is constructed. -/
def initialState : GlobalState :=
  { traceInstalled := false
    assertHandlerInstalled := false
    sInstance := none
    nextFactoryId := 0
    registerTypesCalls := 0
    assertsFired := 0 }

namespace JoltInterface

/-- The `JoltInterface` constructor body (src/JoltJS.h lines 136-154):
installs the trace and assert callbacks, unconditionally assigns
`Factory::sInstance = new Factory()`, and calls `RegisterTypes()`.  It
contains no check of `Factory::sInstance` and no assertion.  (The
physics-system `Init` call configures the `JoltInterfaceInit` record
modelled separately below and does not touch this state.) -/
def construct (s : GlobalState) : GlobalState :=
  { s with
    traceInstalled := true
    assertHandlerInstalled := true
    sInstance := some s.nextFactoryId
    nextFactoryId := s.nextFactoryId + 1
    registerTypesCalls := s.registerTypesCalls + 1 }

end JoltInterface

/-- C6 counterexample: constructing a second `JoltInterface` while one
is live fires no assertion — after two constructions from the initial
state the assertion counter is still zero, the second construction
having silently replaced the installed factory (id 0) with a fresh one
(id 1). -/
theorem second_construction_no_assert :
    (JoltInterface.construct (JoltInterface.construct initialState)).assertsFired = 0 ∧
    (JoltInterface.construct initialState).sInstance = some 0 ∧
    (JoltInterface.construct (JoltInterface.construct initialState)).sInstance = some 1 := by
  decide

/-- C6 amended: the constructor performs no liveness check — from any
state in which a factory is already installed, constructing another
`JoltInterface` fires no assertion, silently overwrites
`Factory::sInstance` with a freshly allocated factory, and re-runs
type registration. -/
theorem second_construction_silently_proceeds (s : GlobalState) (f : Nat)
    (hlive : s.sInstance = some f) :
    (JoltInterface.construct s).assertsFired = s.assertsFired ∧
    (JoltInterface.construct s).sInstance = some s.nextFactoryId ∧
    (JoltInterface.construct s).registerTypesCalls = s.registerTypesCalls + 1 :=
  ⟨rfl, rfl, rfl⟩

/-- Witness for amended C6: the state after one construction has a
live factory, and a second construction proceeds silently. -/
theorem second_construction_silently_proceeds_witness :
    (JoltInterface.construct (JoltInterface.construct initialState)).assertsFired =
      (JoltInterface.construct initialState).assertsFired ∧
    (JoltInterface.construct (JoltInterface.construct initialState)).sInstance =
      some (JoltInterface.construct initialState).nextFactoryId ∧
    (JoltInterface.construct (JoltInterface.construct initialState)).registerTypesCalls =
      (JoltInterface.construct initialState).registerTypesCalls + 1 :=
  second_construction_silently_proceeds (JoltInterface.construct initialState) 0 rfl

/-- The resources owned by a `JoltInterface` instance: its four data
members in declaration order (src/JoltJS.h lines 176-181) and the
process-wide `Factory` singleton created in the constructor body. -/
inductive Resource where
  | tempAllocator : Resource
  | jobSystem : Resource
  | bpLayerInterface : Resource
  | physicsSystem : Resource
  | factory : Resource
deriving Repr, DecidableEq

/-- Order in which a `JoltInterface` brings its resources to life: per
C++ semantics the member initializers (src/JoltJS.h lines 176-181) run
in declaration order before the constructor body, and the constructor
body (lines 136-154) then creates the `Factory` singleton. -/
def constructionOrder : List Resource :=
  [Resource.tempAllocator, Resource.jobSystem, Resource.bpLayerInterface,
   Resource.physicsSystem, Resource.factory]

/-- Order in which `~JoltInterface` (src/JoltJS.h lines 157-162)
destroys the resources: per C++ semantics the destructor body runs
first — and it is the body that deletes the `Factory` singleton — and
only then are the data members destroyed, in reverse declaration
order. -/
def destructionOrder : List Resource :=
  [Resource.factory, Resource.physicsSystem, Resource.bpLayerInterface,
   Resource.jobSystem, Resource.tempAllocator]

/-- The individual actions of `~JoltInterface` in execution order: the
destructor body deletes `Factory::sInstance` then assigns nullptr to
it (src/JoltJS.h lines 160-161), after which the implicit member
destructors run in reverse declaration order. -/
inductive DtorEvent where
  | deleteFactory : DtorEvent
  | nullFactory : DtorEvent
  | destroyMember : Resource → DtorEvent
deriving Repr, DecidableEq

/-- The event sequence `~JoltInterface` executes. -/
def destructorEvents : List DtorEvent :=
  [DtorEvent.deleteFactory, DtorEvent.nullFactory,
   DtorEvent.destroyMember Resource.physicsSystem,
   DtorEvent.destroyMember Resource.bpLayerInterface,
   DtorEvent.destroyMember Resource.jobSystem,
   DtorEvent.destroyMember Resource.tempAllocator]

/-- C7 counterexample: the claim places the teardown of the world
(physics system) and the job pool before the teardown of the
type-registration singleton, but the destructor body — which deletes
the singleton — runs before the member destructors, so the singleton
is destroyed first. -/
theorem factory_destroyed_before_world :
    ¬ (destructionOrder.indexOf Resource.physicsSystem <
         destructionOrder.indexOf Resource.factory ∧
       destructionOrder.indexOf Resource.jobSystem <
         destructionOrder.indexOf Resource.factory) := by
  decide

/-- C7 amended: destruction runs in strict reverse-of-construction
order — the destructor body destroys the type-registration singleton
first and immediately nulls `Factory::sInstance`, before the world,
the layer interface, the job pool and the scratch arena are destroyed
in reverse declaration order. -/
theorem destruction_reverse_of_construction :
    destructionOrder = constructionOrder.reverse ∧
    destructorEvents.indexOf DtorEvent.nullFactory =
      destructorEvents.indexOf DtorEvent.deleteFactory + 1 ∧
    destructorEvents.head? = some DtorEvent.deleteFactory := by
  decide

/-- Arguments the `JoltInterface` member initializer passes to the
`JobSystemThreadPool` constructor (src/JoltJS.h line 178):
`cMaxPhysicsJobs`, `cMaxPhysicsBarriers` (engine-defined bounds on
concurrently-scheduled jobs and barriers, passed through unchanged)
and `(int)thread::hardware_concurrency() - 1` worker threads. -/
structure JobSystemArgs where
  maxJobs : Nat
  maxBarriers : Nat
  numThreads : Int
deriving Repr, DecidableEq

/-- Everything `JoltInterface` construction fixes about the physics
world and its helpers (src/JoltJS.h lines 148-153 and 176-181): the
scratch-arena byte size, the job-system arguments, the four capacity
constants handed to `PhysicsSystem::Init`, the broadphase-layer table
of the `BPLayerInterfaceImpl` member, and the two filter functions
wired into `Init`. -/
structure JoltInterfaceInit where
  tempAllocatorBytes : Nat
  jobSystem : JobSystemArgs
  cMaxBodies : Nat
  cNumBodyMutexes : Nat
  cMaxBodyPairs : Nat
  cMaxContactConstraints : Nat
  broadPhaseLayerTable : List Nat
  broadPhaseCanCollide : Nat → Nat → ExecResult Bool
  objectCanCollide : Nat → Nat → ExecResult Bool

/-- The configuration a `JoltInterface` is constructed with, as a
function of the machine's hardware concurrency and the engine
constants `cMaxPhysicsJobs` and `cMaxPhysicsBarriers`: a 10 * 1024 *
1024 byte `TempAllocatorImpl`, a `JobSystemThreadPool` with
`(int)hardware_concurrency - 1` threads, and `PhysicsSystem::Init`
called with the four local constants of lines 149-152, the
`BPLayerInterfaceImpl` member and the two filters. -/
def JoltInterface.init (hardwareConcurrency cMaxPhysicsJobs cMaxPhysicsBarriers : Nat) :
    JoltInterfaceInit :=
  { tempAllocatorBytes := 10 * 1024 * 1024
    jobSystem :=
      { maxJobs := cMaxPhysicsJobs
        maxBarriers := cMaxPhysicsBarriers
        numThreads := (hardwareConcurrency : Int) - 1 }
    cMaxBodies := 1024
    cNumBodyMutexes := 0
    cMaxBodyPairs := 1024
    cMaxContactConstraints := 1024
    broadPhaseLayerTable := BPLayerInterfaceImpl.mObjectToBroadPhase
    broadPhaseCanCollide := MyBroadPhaseCanCollide
    objectCanCollide := MyObjectCanCollide }

/-- C8: for every hardware concurrency and engine job/barrier bounds,
construction fixes a 10 MiB (10485760 byte) scratch arena, a job pool
of hardware-concurrency-minus-one worker threads bounded by the given
maximums for jobs and barriers, world capacity limits of 1024 bodies,
1024 body pairs and 1024 contact constraints, and wires in the
broadphase-layer mapping table and both collision filters. -/
theorem joltInterface_init_configuration
    (hardwareConcurrency cMaxPhysicsJobs cMaxPhysicsBarriers : Nat) :
    (JoltInterface.init hardwareConcurrency cMaxPhysicsJobs
        cMaxPhysicsBarriers).tempAllocatorBytes = 10485760 ∧
    (JoltInterface.init hardwareConcurrency cMaxPhysicsJobs
        cMaxPhysicsBarriers).jobSystem =
      { maxJobs := cMaxPhysicsJobs
        maxBarriers := cMaxPhysicsBarriers
        numThreads := (hardwareConcurrency : Int) - 1 } ∧
    (JoltInterface.init hardwareConcurrency cMaxPhysicsJobs
        cMaxPhysicsBarriers).cMaxBodies = 1024 ∧
    (JoltInterface.init hardwareConcurrency cMaxPhysicsJobs
        cMaxPhysicsBarriers).cMaxBodyPairs = 1024 ∧
    (JoltInterface.init hardwareConcurrency cMaxPhysicsJobs
        cMaxPhysicsBarriers).cMaxContactConstraints = 1024 ∧
    (JoltInterface.init hardwareConcurrency cMaxPhysicsJobs
        cMaxPhysicsBarriers).broadPhaseLayerTable =
      BPLayerInterfaceImpl.mObjectToBroadPhase ∧
    (JoltInterface.init hardwareConcurrency cMaxPhysicsJobs
        cMaxPhysicsBarriers).broadPhaseCanCollide = MyBroadPhaseCanCollide ∧
    (JoltInterface.init hardwareConcurrency cMaxPhysicsJobs
        cMaxPhysicsBarriers).objectCanCollide = MyObjectCanCollide :=
  ⟨rfl, rfl, rfl, rfl, rfl, rfl, rfl, rfl⟩

/-- Modelled from the spec: the `TempAllocatorImpl` scratch arena
(instantiated with 10 * 1024 * 1024 bytes at src/JoltJS.h line 177) is
library code not under src/; per the spec it is "a fixed-size block of
temporary memory (bytes) reused every simulation step".  It is a
last-in-first-out stack allocator: `size` is the fixed capacity and
`allocStack` the sizes of the live allocations, most recent first. -/
structure TempAllocatorImpl where
  size : Nat
  allocStack : List Nat
deriving Repr, DecidableEq

/-- The used-byte count of the arena: the total size of its live
allocations. -/
def TempAllocatorImpl.used (a : TempAllocatorImpl) : Nat := a.allocStack.sum

/-- A single transient arena operation performed inside a simulation
step: allocate a block of the given byte size, or release one. -/
inductive ArenaOp where
  | alloc : Nat → ArenaOp
  | free : Nat → ArenaOp
deriving Repr, DecidableEq

/-- Modelled from the spec: one arena operation.  Allocation fails
(fatal capacity fault) when it would exceed the fixed size; release
must match the most recent live allocation (last-in-first-out), else
the operation faults. -/
def applyOp (a : TempAllocatorImpl) : ArenaOp → Option TempAllocatorImpl
  | ArenaOp.alloc n =>
      if a.used + n ≤ a.size then
        some { a with allocStack := n :: a.allocStack }
      else
        none
  | ArenaOp.free n =>
      match a.allocStack with
      | [] => none
      | m :: rest => if m = n then some { a with allocStack := rest } else none

/-- Run a sequence of arena operations, faulting as soon as one
operation faults. -/
def runOps (a : TempAllocatorImpl) : List ArenaOp → Option TempAllocatorImpl
  | [] => some a
  | op :: ops => (applyOp a op).bind fun a2 => runOps a2 ops

/-- The operation sequences a completed step may perform on the
arena: properly nested allocate/release pairs (every transient
allocation of the step is released again before step exit, in
last-in-first-out order). -/
inductive BalancedOps : List ArenaOp → Prop where
  | nil : BalancedOps []
  | wrap (n : Nat) (ops : List ArenaOp) :
      BalancedOps ops → BalancedOps (ArenaOp.alloc n :: (ops ++ [ArenaOp.free n]))
  | append (l1 l2 : List ArenaOp) :
      BalancedOps l1 → BalancedOps l2 → BalancedOps (l1 ++ l2)

theorem runOps_append (l1 l2 : List ArenaOp) :
    ∀ a, runOps a (l1 ++ l2) = (runOps a l1).bind fun x => runOps x l2 := by
  induction l1 with
  | nil =>
      intro a
      simp [runOps]
  | cons op l ih =>
      intro a
      simp only [List.cons_append, runOps]
      cases applyOp a op with
      | none => simp
      | some a2 => simp [ih]

theorem runOps_balancedOps_preserves {ops : List ArenaOp} (hb : BalancedOps ops) :
    ∀ a c, runOps a ops = some c → c = a := by
  induction hb with
  | nil =>
      intro a c h
      simp only [runOps, Option.some.injEq] at h
      exact h.symm
  | wrap n ops hops ih =>
      intro a c h
      simp only [runOps, Option.bind_eq_some] at h
      obtain ⟨a1, ha1, h⟩ := h
      rw [runOps_append] at h
      simp only [Option.bind_eq_some] at h
      obtain ⟨am, ham, hfree⟩ := h
      have hstep := ih a1 am ham
      subst hstep
      simp only [applyOp] at ha1
      split at ha1
      case isTrue =>
        have ha1 := Option.some.inj ha1
        subst ha1
        simp [runOps, applyOp] at hfree
        first
        | exact hfree
        | exact hfree.symm
      case isFalse =>
        exact absurd ha1 (by simp)
  | append l1 l2 h1 h2 ih1 ih2 =>
      intro a c h
      rw [runOps_append] at h
      simp only [Option.bind_eq_some] at h
      obtain ⟨am, ham, htail⟩ := h
      have hm := ih1 a am ham
      subst hm
      exact ih2 _ c htail

/-- Modelled from the spec: `Step` (src/JoltJS.h lines 165-168) passes
the scratch arena to `PhysicsSystem::Update`, which is library code
not under src/.  Per the spec, "the scratch arena is reset to empty at
step entry", and the step's transient per-phase allocations are an
operation sequence on the arena; the step completes when every
operation succeeds.  The time arguments do not influence the arena
accounting. -/
def JoltInterface.Step (inDeltaTime : Rat)
    (inCollisionSteps inIntegrationSubSteps : Int)
    (a : TempAllocatorImpl) (ops : List ArenaOp) : Option TempAllocatorImpl :=
  runOps { a with allocStack := [] } ops

/-- C9: every completed `Step` call — nonnegative delta time, at least
one collision step and one integration substep, and a balanced
transient allocation sequence that runs to completion — leaves the
scratch arena with a used-byte count of exactly zero. -/
theorem step_arena_drained (inDeltaTime : Rat)
    (inCollisionSteps inIntegrationSubSteps : Int)
    (a c : TempAllocatorImpl) (ops : List ArenaOp)
    (hdt : 0 ≤ inDeltaTime) (hcs : 1 ≤ inCollisionSteps)
    (hss : 1 ≤ inIntegrationSubSteps) (hb : BalancedOps ops)
    (hstep : JoltInterface.Step inDeltaTime inCollisionSteps
        inIntegrationSubSteps a ops = some c) :
    c.used = 0 := by
  have hc := runOps_balancedOps_preserves hb _ _ hstep
  rw [hc]
  rfl

/-- Witness for C9: a concrete completed step — a 10485760-byte arena
holding a stale 7-byte entry at entry, one 16-byte transient
allocation released before exit — ends with zero used bytes. -/
theorem step_arena_drained_witness :
    TempAllocatorImpl.used { size := 10485760, allocStack := [] } = 0 :=
  step_arena_drained 1 1 1
    { size := 10485760, allocStack := [7] }
    { size := 10485760, allocStack := [] }
    [ArenaOp.alloc 16, ArenaOp.free 16]
    (by norm_num) (by norm_num) (by norm_num)
    (BalancedOps.wrap 16 [] BalancedOps.nil)
    (by decide)
